import Mathlib

/-!
# AtomDB core: shallow embedding and verification

This file embeds the core of the AtomDB repository
(`atomdb/species.py` and `atomdb/datasets/hci_augccpwcvqz/__init__.py`)
in Lean 4 and settles the frozen claims about it.

Modelling conventions:
* Real-valued NumPy arrays over the radial grid become functions `Nat → Real`
  (index into the grid) packaged with an explicit length; 2-D per-orbital
  arrays become `Nat → Nat → Real` with an explicit row count.
* The external SciPy `CubicSpline` fit is a parameter: a function
  `fit : (Nat → Real) → (Nat → Real) → Real → Nat → Real` taking the grid and
  the sample values and producing the fitted piecewise polynomial, evaluated
  as `obj x nu` (value at `x` of the `nu`-th derivative).  Everything the
  repository itself does with a fitted spline is modelled exactly.
* Python exceptions become `Except` results carrying a `PyErr`.
-/

namespace AtomDB

/-- Python exception values raised by the embedded code. -/
inductive PyErr where
  | valueError (msg : String)
  | typeError (msg : String)
  | attributeError (msg : String)
  | nameError (msg : String)
  | fileNotFoundError (msg : String)
  deriving Repr, DecidableEq

/-- A fitting procedure standing for `scipy.interpolate.CubicSpline` with
`bc_type="not-a-knot"` and `extrapolate=True`: from the grid `x` and samples
`y` it yields the fitted object, evaluated as `obj q nu` = the `nu`-th
derivative of the fitted curve at the query point `q`.  The fit itself is an
external collaborator; the repository only evaluates the returned object. -/
def FitProc : Type := (Nat → Real) → (Nat → Real) → Real → Nat → Real

/-- State of `DensitySpline`: the `log` flag and the fitted object `_obj`
(`species.py`, class `DensitySpline`). -/
structure DensitySpline where
  log : Bool
  obj : Real → Nat → Real

/-- Constructor `DensitySpline.__init__(x, y, log)` (`species.py` lines 120-129): store
the `log` flag and fit `CubicSpline` to `log(y)` when `log` is set, else to
`y` itself. -/
noncomputable def DensitySpline.ofFit (fit : FitProc) (x y : Nat → Real)
    (log : Bool) : DensitySpline :=
  { log := log
    obj := fit x (if log then fun j => Real.log (y j) else y) }

/-- Evaluation `DensitySpline.__call__(x, deriv)` (`species.py` lines 131-165):
reject `deriv` outside `0 <= deriv <= 2`; in log mode reconstruct the value
and derivatives from the fitted log-domain spline by the chain rule; in
linear mode evaluate the fitted spline derivative directly. -/
noncomputable def DensitySpline.call (d : DensitySpline) (x : Real)
    (deriv : Int) : Except PyErr Real :=
  if ¬ (0 ≤ deriv ∧ deriv ≤ 2) then
    .error (.valueError "Invalid derivative order; must be 0 le deriv le 2")
  else if d.log then
    let y := Real.exp (d.obj x 0)
    if deriv = 1 then
      .ok (d.obj x 1 * y)
    else if deriv = 2 then
      .ok (d.obj x 2 * y + (d.obj x 1) ^ 2 * y)
    else
      .ok y
  else
    .ok (d.obj x deriv.toNat)

/-- A 1-D NumPy array over the radial grid: length and entries. -/
structure Vec where
  len : Nat
  entry : Nat → Real

/-- A 2-D NumPy array (orbital rows over the radial grid): row count and
entries, `entry i j` being row `i` at grid point `j`. -/
structure Mat where
  rows : Nat
  entry : Nat → Nat → Real

/-- Pointwise matrix sum, as NumPy `+` on arrays of equal shape (well-formed
records store alpha and beta channels with the same shape). -/
def Mat.add (a b : Mat) : Mat :=
  { rows := a.rows, entry := fun i j => a.entry i j + b.entry i j }

/-- Pointwise matrix difference, as NumPy `-` on arrays of equal shape. -/
def Mat.sub (a b : Mat) : Mat :=
  { rows := a.rows, entry := fun i j => a.entry i j - b.entry i j }

/-- The reduction `arr[... if index is None else index].sum(axis=0)` (`species.py` line
111): with no index, sum all rows of `arr`; with an index sequence, sum the
selected rows.  The result is a 1-D array over the grid. -/
def Mat.selectSum (arr : Mat) (index : Option (List Nat)) : Nat → Real :=
  fun j =>
    match index with
    | none => ((List.range arr.rows).map (fun i => arr.entry i j)).sum
    | some is => (is.map (fun i => arr.entry i j)).sum

/-- Record `SpeciesData` (`species.py` lines 179-225): the database record.
Unset scalar fields default to `None`, array fields default to empty
arrays (`default_vector` / `default_matrix`). -/
structure SpeciesData where
  elem : String
  atnum : Int
  basis : String
  nelec : Int
  nspin : Int
  nexc : Int
  energy : Option Real := none
  ip : Option Real := none
  mu : Option Real := none
  eta : Option Real := none
  rs : Vec := ⟨0, fun _ => 0⟩
  mo_energy_a : Vec := ⟨0, fun _ => 0⟩
  mo_energy_b : Vec := ⟨0, fun _ => 0⟩
  mo_occs_a : Vec := ⟨0, fun _ => 0⟩
  mo_occs_b : Vec := ⟨0, fun _ => 0⟩
  mo_dens_a : Mat := ⟨1, fun _ _ => 0⟩
  mo_dens_b : Mat := ⟨1, fun _ _ => 0⟩
  dens_tot : Mat := ⟨1, fun _ _ => 0⟩
  mo_d_dens_a : Mat := ⟨1, fun _ _ => 0⟩
  mo_d_dens_b : Mat := ⟨1, fun _ _ => 0⟩
  d_dens_tot : Mat := ⟨1, fun _ _ => 0⟩
  mo_dd_dens_a : Mat := ⟨1, fun _ _ => 0⟩
  mo_dd_dens_b : Mat := ⟨1, fun _ _ => 0⟩
  dd_dens_tot : Mat := ⟨1, fun _ _ => 0⟩
  mo_ked_a : Mat := ⟨1, fun _ _ => 0⟩
  mo_ked_b : Mat := ⟨1, fun _ _ => 0⟩
  ked_tot : Mat := ⟨1, fun _ _ => 0⟩

/-- Facade `Species` (`species.py` lines 228-236): a lowercased dataset name, the
wrapped `SpeciesData`, and the spin polarization set through the `spinpol`
setter. -/
structure Species where
  dataset : String
  data : SpeciesData
  spinpol : Int

/-- Property `Species.charge` (`species.py` lines 255-258): atomic number minus
electron count. -/
def Species.charge (s : Species) : Int :=
  s.data.atnum - s.data.nelec

/-- Property `Species.mult` (`species.py` lines 265-268): the property body evaluates
`self._data.nspin + 1` but has no `return` statement, so the property always
returns `None` (modelled as `none`; the evaluated-then-discarded expression
is kept as a dead binding). -/
def Species.mult (s : Species) : Option Int :=
  let _ := s.data.nspin + 1
  none

/-- Property `Species.nspin` (`species.py` lines 260-263): evaluates
`self._data.nspin * self._spinpol` but has no `return` statement, so it
always returns `None`. -/
def Species.nspinProp (s : Species) : Option Int :=
  let _ := s.data.nspin * s.spinpol
  none

/-- Property `Species.nexc` (`species.py` lines 288-291, via the `scalar` decorator):
returns the record field `nexc`. -/
def Species.nexc (s : Species) : Int :=
  s.data.nexc

/-- Modelled from the spec: `Species` inherits from `Element`
(`atomdb/periodic.py`, not in the excerpt), which exposes the element
symbol `elem`; the record stores the same dataset-independent symbol. -/
def Species.elem (s : Species) : String :=
  s.data.elem

/-- Python runtime values handed to the `spinpol` setter.  `isIntegral`
mirrors `isinstance(v, numbers.Integral)` (ints and bools are integral,
floats and strings are not); `toInt` mirrors `int(v)` on integral values. -/
inductive PyVal where
  | int (n : Int)
  | bool (b : Bool)
  | float (x : Real)
  | str (s : String)

/-- Test `isinstance(spinpol, Integral)`: true exactly for ints and bools. -/
def PyVal.isIntegral : PyVal → Bool
  | .int _ => true
  | .bool _ => true
  | .float _ => false
  | .str _ => false

/-- Coercion `int(spinpol)` on an integral value (`True` is 1, `False` is 0); the
setter only reaches this after the integrality check. -/
def PyVal.toInt : PyVal → Int
  | .int n => n
  | .bool b => if b then 1 else 0
  | .float _ => 0
  | .str _ => 0

/-- Setter of `Species.spinpol` (`species.py` lines 275-286): `TypeError` for
non-integral values, `ValueError` when `abs(int(v)) != 1`, otherwise assign
`self._spinpol = int(v)`.  The returned pair is (the species afterwards,
the exception raised if any); the assignment is the last statement, so on
an exception the species is returned unchanged. -/
def Species.setSpinpol (s : Species) (v : PyVal) : Species × Option PyErr :=
  if ¬ v.isIntegral then
    (s, some (.typeError "spinpol attribute must be an integral type"))
  else
    let n := v.toInt
    if n.natAbs ≠ 1 then
      (s, some (.valueError "spinpol must be plus 1 or minus 1"))
    else
      ({ s with spinpol := n }, none)

/-- Array extraction of the `spline`-decorated accessors (`species.py` lines
89-111), shared by `dens_func`, `dd_dens_func` and `ked_func`: `tot`, `mo_a`
and `mo_b` are the three record fields named by the decorated method
(`<name>_tot`, `mo_<name>_a`, `mo_<name>_b`).  With `spinpol == 1` channel
`a` is the stored `a` array, otherwise the channels swap; then the array is
chosen by `spin` and reduced by `Mat.selectSum`.  The source has no `else`
branch after `spin == "m"`; the wrapper validates `spin` before reaching
this point, so `"m"` is the residual case here. -/
def accessorArr (tot mo_a mo_b : Mat) (spinpol : Int) (spin : String)
    (index : Option (List Nat)) : Nat → Real :=
  let name_a := if spinpol = 1 then mo_a else mo_b
  let name_b := if spinpol = 1 then mo_b else mo_a
  let arr : Mat :=
    if index = none ∧ spin = "t" then tot
    else if spin = "t" then name_a.add name_b
    else if spin = "a" then name_a
    else if spin = "b" then name_b
    else name_a.sub name_b
  arr.selectSum index

/-- The `spline`-decorated accessor wrapper (`species.py` lines 76-114):
validate `spin`, extract the array, and build a `DensitySpline` over the
record grid `rs` (with the default `log=False`). -/
noncomputable def splineAccessor (fit : FitProc) (rs : Vec)
    (tot mo_a mo_b : Mat) (spinpol : Int) (spin : String)
    (index : Option (List Nat)) : Except PyErr DensitySpline :=
  if spin ∉ ["t", "a", "b", "m"] then
    .error (.valueError "Invalid spin parameter; choose one of t a b m")
  else
    .ok (DensitySpline.ofFit fit rs.entry
      (accessorArr tot mo_a mo_b spinpol spin index) false)

/-- Accessor `Species.dens_func` (`species.py` lines 313-339): the `spline` wrapper
applied to the `dens` fields. -/
noncomputable def Species.dens_func (fit : FitProc) (s : Species)
    (spin : String) (index : Option (List Nat)) : Except PyErr DensitySpline :=
  splineAccessor fit s.data.rs s.data.dens_tot s.data.mo_dens_a
    s.data.mo_dens_b s.spinpol spin index

/-- Accessor `Species.dd_dens_func` (`species.py` lines 341-367): the `spline`
wrapper applied to the `dd_dens` fields. -/
noncomputable def Species.dd_dens_func (fit : FitProc) (s : Species)
    (spin : String) (index : Option (List Nat)) : Except PyErr DensitySpline :=
  splineAccessor fit s.data.rs s.data.dd_dens_tot s.data.mo_dd_dens_a
    s.data.mo_dd_dens_b s.spinpol spin index

/-- Accessor `Species.ked_func` (`species.py` lines 369-395): the `spline` wrapper
applied to the `ked` fields. -/
noncomputable def Species.ked_func (fit : FitProc) (s : Species)
    (spin : String) (index : Option (List Nat)) : Except PyErr DensitySpline :=
  splineAccessor fit s.data.rs s.data.ked_tot s.data.mo_ked_a
    s.data.mo_ked_b s.spinpol spin index

/-- Left-pad a digit string with zeros to width `w`. -/
def padZeros (w : Nat) (s : String) : String :=
  String.mk (List.replicate (w - s.length) '0') ++ s

/-- Python `f"{n:03d}"`: minimum field width 3, zero fill, the sign counted
in the width and placed before the fill zeros. -/
def format03d (n : Int) : String :=
  if n < 0 then "-" ++ padZeros 2 (toString n.natAbs)
  else padZeros 3 (toString n.natAbs)

/-- Python check of whether a path component starts with the separator. -/
def startsWithSlash (s : String) : Bool :=
  match s.data with
  | [] => false
  | c :: _ => c = '/'

/-- Python check of whether a path prefix ends with the separator. -/
def endsWithSlash (s : String) : Bool :=
  match s.data.getLast? with
  | some c => c = '/'
  | none => false

/-- One step of POSIX `os.path.join`: an absolute component resets the
result; otherwise a separator is inserted unless the prefix is empty or
already ends with one. -/
def joinOne (a b : String) : String :=
  if startsWithSlash b then b
  else if a = "" ∨ endsWithSlash a then a ++ b
  else a ++ "/" ++ b

/-- POSIX `os.path.join(a, parts...)`. -/
def pathJoin (a : String) (parts : List String) : String :=
  parts.foldl joinOne a

/-- Python `s.lower()`: lowercase every character (dataset names are
ASCII identifiers, where this is exactly `str.lower`). -/
def pyLower (s : String) : String :=
  String.mk (s.data.map Char.toLower)

/-- Function `datafile` (`species.py` lines 450-464) restricted to non-wildcard keys
(no argument is `Ellipsis`): format the key fields and join
`datapath/dataset.lower()/db/<ELEM>_<charge:03d>_<mult:03d>_<nexc:03d>.msg`.
`elemSymbol` stands for `atomdb.periodic.element_symbol` (not in the
excerpt), which canonicalizes the element argument. -/
def datafile (elemSymbol : String → String) (elem : String)
    (charge mult nexc : Int) (dataset datapath : String) : String :=
  pathJoin datapath
    [pyLower dataset, "db",
     elemSymbol elem ++ "_" ++ format03d charge ++ "_" ++ format03d mult
       ++ "_" ++ format03d nexc ++ ".msg"]

/-- The database directory contents: a map from file path to the stored
record field mapping.  `msgpack.packb(asdict(record))` is injective on
records, so a file's bytes are identified with the record they encode. -/
def FS : Type := String → Option SpeciesData

/-- Function `dump` (`species.py` lines 415-421) on a single species: compute the
file name from `s.elem`, `s.charge`, `s.mult`, `s.nexc` and write the packed
record there.  `s.mult` is the broken property returning `None`, and
`datafile` formats it with `f"{mult:03d}"`, so the call raises `TypeError`
before any file is written. -/
def dump (elemSymbol : String → String) (s : Species) (datapath : String)
    (fs : FS) : Except PyErr FS :=
  match s.mult with
  | none =>
      .error (.typeError
        "unsupported format string passed to NoneType format")
  | some m =>
      .ok (fun p =>
        if p = datafile elemSymbol s.elem s.charge m s.nexc s.dataset datapath
        then some s.data else fs p)

/-- Function `load` (`species.py` lines 424-447) restricted to non-wildcard keys
(the `Ellipsis in (...)` test is false, taking the `else` branch): open the
file at the derived path — `FileNotFoundError` when absent — then call
`f.readall()`.  Python file objects returned by `open` (text-mode
`TextIOWrapper` here) have no `readall` method, so the call raises
`AttributeError` before deserializing. -/
def load (elemSymbol : String → String) (elem : String)
    (charge mult nexc : Int) (dataset datapath : String) (fs : FS) :
    Except PyErr Species :=
  let fn := datafile elemSymbol elem charge mult nexc dataset datapath
  match fs fn with
  | none => .error (.fileNotFoundError fn)
  | some _ =>
      .error (.attributeError "TextIOWrapper object has no attribute readall")

/-- Routine `run` of the `hci_augccpwcvqz` dataset
(`datasets/hci_augccpwcvqz/__init__.py` lines 51-67), paired with the list
of raw input files read so far.  The first statement rejects `nexc != 0`
with `ValueError`, before anything is read or computed.  On the `nexc == 0`
path the internal variables are bound, and then the call
`atomdb.datafile(".molden", elem, charge, mult, nexc, dataset, datapath)`
passes seven positional arguments to the six-parameter `datafile`, raising
`TypeError` while still no raw input file has been opened.  `elemSymbol` and
`elemNumber` stand for `atomdb.element_symbol` / `atomdb.element_number`
(not in the excerpt). -/
def hci_run (elemSymbol : String → String) (elemNumber : String → Int)
    (elem : String) (charge mult nexc : Int) (_dataset _datapath : String) :
    Except PyErr Unit × List String :=
  if nexc ≠ 0 then
    (.error (.valueError "Nonzero value of nexc is not currently supported"),
     [])
  else
    let e := elemSymbol elem
    let natom := elemNumber e
    let _nelec := natom - charge
    let _nspin := mult - 1
    (.error (.typeError
      "datafile takes from 3 to 6 positional arguments but 7 were given"),
     [])

/-- A concrete populated record (hydrogen ground state) used as a test
input by the witnesses below. -/
noncomputable def sampleData : SpeciesData :=
  { elem := "H", atnum := 1, basis := "aug-ccpwCVQZ", nelec := 1,
    nspin := 1, nexc := 0 }

/-- A concrete `Species` wrapping `sampleData`. -/
noncomputable def sampleSpecies : Species :=
  { dataset := "slater", data := sampleData, spinpol := 1 }

/-- A trivial fitting procedure used as a concrete `FitProc` in witnesses. -/
noncomputable def zeroFit : FitProc :=
  fun _ _ _ _ => 0

/-- A concrete linear-mode `DensitySpline` used in witnesses. -/
noncomputable def sampleSpline : DensitySpline :=
  { log := false, obj := fun _ _ => 0 }

/-- A concrete matrix used in witnesses. -/
noncomputable def zeroMat : Mat :=
  { rows := 1, entry := fun _ _ => 0 }

/-- A second concrete matrix, different from `zeroMat`, used in witnesses. -/
noncomputable def oneMat : Mat :=
  { rows := 2, entry := fun _ _ => 1 }

theorem list_sum_map_add (l : List Nat) (f g : Nat → Real) :
    (l.map (fun i => f i + g i)).sum = (l.map f).sum + (l.map g).sum := by
  induction l with
  | nil => simp
  | cons a t ih => simp only [List.map_cons, List.sum_cons, ih]; ring

theorem list_sum_map_sub (l : List Nat) (f g : Nat → Real) :
    (l.map (fun i => f i - g i)).sum = (l.map f).sum - (l.map g).sum := by
  induction l with
  | nil => simp
  | cons a t ih => simp only [List.map_cons, List.sum_cons, ih]; ring

/-- C2: the claim states that the `mult` property returns the multiplicity
`|nspin| + 1`.  In the code the property body evaluates `self._data.nspin
+ 1` without a `return` statement, so the property always returns `None`
(and even the discarded expression omits the absolute value). -/
theorem claim2_mult_always_none (s : Species) :
    s.mult = none := by
  rfl

/-- C3: for a `DensitySpline` constructed with `log=True`, evaluation with
`deriv=1` returns the first derivative of the fitted log-domain spline
times `y = exp(spline(x))`, and `deriv=2` returns the chain-rule second
derivative `d2logy * y + dlogy^2 * y`. -/
theorem claim3_log_chain_rule (fit : FitProc) (xs ys : Nat → Real)
    (x : Real) :
    (DensitySpline.ofFit fit xs ys true).call x 1 =
      .ok (fit xs (fun j => Real.log (ys j)) x 1 *
        Real.exp (fit xs (fun j => Real.log (ys j)) x 0)) ∧
    (DensitySpline.ofFit fit xs ys true).call x 2 =
      .ok (fit xs (fun j => Real.log (ys j)) x 2 *
        Real.exp (fit xs (fun j => Real.log (ys j)) x 0) +
        (fit xs (fun j => Real.log (ys j)) x 1) ^ 2 *
        Real.exp (fit xs (fun j => Real.log (ys j)) x 0)) := by
  constructor <;> norm_num [DensitySpline.call, DensitySpline.ofFit]

/-- C9: for a `DensitySpline` constructed with `log=True`, evaluation with
`deriv=0` at any query point returns the exponential of the fitted
log-domain spline value, which is strictly positive. -/
theorem claim9_log_mode_positive (fit : FitProc) (xs ys : Nat → Real)
    (x : Real) :
    (DensitySpline.ofFit fit xs ys true).call x 0 =
      .ok (Real.exp (fit xs (fun j => Real.log (ys j)) x 0)) ∧
    0 < Real.exp (fit xs (fun j => Real.log (ys j)) x 0) := by
  refine ⟨?_, Real.exp_pos _⟩
  norm_num [DensitySpline.call, DensitySpline.ofFit]

/-- C4: calling a `DensitySpline` with a derivative order outside
`{0, 1, 2}` returns the invalid-argument error, and calling any of the
three spline accessors with a spin selector outside `{t, a, b, m}` returns
the invalid-argument error as the first step, before any array is read or
any spline is constructed. -/
theorem claim4_invalid_arguments :
    (∀ (d : DensitySpline) (x : Real) (deriv : Int),
        deriv < 0 ∨ 2 < deriv →
        d.call x deriv = .error (.valueError
          "Invalid derivative order; must be 0 le deriv le 2")) ∧
    (∀ (fit : FitProc) (s : Species) (spin : String)
        (index : Option (List Nat)),
        spin ∉ (["t", "a", "b", "m"] : List String) →
        Species.dens_func fit s spin index = .error (.valueError
          "Invalid spin parameter; choose one of t a b m") ∧
        Species.dd_dens_func fit s spin index = .error (.valueError
          "Invalid spin parameter; choose one of t a b m") ∧
        Species.ked_func fit s spin index = .error (.valueError
          "Invalid spin parameter; choose one of t a b m")) := by
  constructor
  · intro d x deriv h
    have hc : ¬ (0 ≤ deriv ∧ deriv ≤ 2) := by omega
    simp [DensitySpline.call, hc]
  · intro fit s spin index h
    refine ⟨?_, ?_, ?_⟩ <;>
      simp [Species.dens_func, Species.dd_dens_func, Species.ked_func,
        splineAccessor, h]

/-- Witness for C4: `deriv=3` on a concrete spline and `spin="x"` on a
concrete species are both rejected. -/
theorem claim4_witness :
    sampleSpline.call 0 3 = .error (.valueError
      "Invalid derivative order; must be 0 le deriv le 2") ∧
    (Species.dens_func zeroFit sampleSpecies "x" none = .error (.valueError
      "Invalid spin parameter; choose one of t a b m") ∧
     Species.dd_dens_func zeroFit sampleSpecies "x" none =
      .error (.valueError "Invalid spin parameter; choose one of t a b m") ∧
     Species.ked_func zeroFit sampleSpecies "x" none =
      .error (.valueError "Invalid spin parameter; choose one of t a b m")) :=
  ⟨claim4_invalid_arguments.1 sampleSpline 0 3 (by norm_num),
   claim4_invalid_arguments.2 zeroFit sampleSpecies "x" none (by decide)⟩

/-- C7: the `hci_augccpwcvqz` compute routine `run` rejects any nonzero
excitation index with `ValueError` as its first statement, before any raw
input file has been read (the read trace is empty). -/
theorem claim7_nonzero_nexc_rejected (eS : String → String)
    (eN : String → Int) (elem : String) (charge mult nexc : Int)
    (ds dp : String) (h : nexc ≠ 0) :
    hci_run eS eN elem charge mult nexc ds dp =
      (.error (.valueError
        "Nonzero value of nexc is not currently supported"), []) := by
  simp [hci_run, h]

/-- Witness for C7: a concrete call with `nexc = 1` is rejected with the
unsupported-feature error and an empty read trace. -/
theorem claim7_witness :
    hci_run (fun s => s) (fun _ => 2) "He" 0 1 1 "hci_augccpwcvqz" "data" =
      (.error (.valueError
        "Nonzero value of nexc is not currently supported"), []) :=
  claim7_nonzero_nexc_rejected (fun s => s) (fun _ => 2) "He" 0 1 1
    "hci_augccpwcvqz" "data" (by decide)

/-- C10: the `spinpol` setter accepts exactly the integral values of
absolute value 1 (booleans included, `True` becoming `+1`); every species
whose assignment succeeds has `spinpol = 1` or `spinpol = -1`; non-integral
values raise `TypeError`, integral values of other magnitude raise
`ValueError`, and on rejection the species is unchanged. -/
theorem claim10_spinpol_setter :
    (∀ (s : Species) (v : PyVal) (s2 : Species),
        s.setSpinpol v = (s2, none) → s2.spinpol = 1 ∨ s2.spinpol = -1) ∧
    (∀ s : Species, s.setSpinpol (.bool true) =
        ({ s with spinpol := 1 }, none)) ∧
    (∀ (s : Species) (v : PyVal), v.isIntegral = false →
        s.setSpinpol v = (s, some (.typeError
          "spinpol attribute must be an integral type"))) ∧
    (∀ (s : Species) (n : Int), n.natAbs ≠ 1 →
        s.setSpinpol (.int n) = (s, some (.valueError
          "spinpol must be plus 1 or minus 1"))) ∧
    (∀ (s : Species) (v : PyVal) (s2 : Species) (e : PyErr),
        s.setSpinpol v = (s2, some e) → s2 = s) := by
  refine ⟨?_, ?_, ?_, ?_, ?_⟩
  · intro s v s2 h
    by_cases hi : v.isIntegral
    · by_cases ha : v.toInt.natAbs = 1
      · simp [Species.setSpinpol, hi, ha] at h
        subst h
        show v.toInt = 1 ∨ v.toInt = -1
        omega
      · simp [Species.setSpinpol, hi, ha] at h
    · simp [Species.setSpinpol, hi] at h
  · intro s
    rfl
  · intro s v h
    simp [Species.setSpinpol, h]
  · intro s n h
    simp [Species.setSpinpol, PyVal.isIntegral, PyVal.toInt, h]
  · intro s v s2 e h
    by_cases hi : v.isIntegral
    · by_cases ha : v.toInt.natAbs = 1
      · simp [Species.setSpinpol, hi, ha] at h
      · simp [Species.setSpinpol, hi, ha] at h
        exact h.1.symm
    · simp [Species.setSpinpol, hi] at h
      exact h.1.symm

/-- Witness for C10: concrete rejections and a concrete success. -/
theorem claim10_witness :
    (({ sampleSpecies with spinpol := -1 } : Species).spinpol = 1 ∨
      ({ sampleSpecies with spinpol := -1 } : Species).spinpol = -1) ∧
    sampleSpecies.setSpinpol (.float 2) = (sampleSpecies, some (.typeError
      "spinpol attribute must be an integral type")) ∧
    sampleSpecies.setSpinpol (.int 3) = (sampleSpecies, some (.valueError
      "spinpol must be plus 1 or minus 1")) :=
  ⟨claim10_spinpol_setter.1 sampleSpecies (.int (-1))
      { sampleSpecies with spinpol := -1 } (by rfl),
   claim10_spinpol_setter.2.2.1 sampleSpecies (.float 2) rfl,
   claim10_spinpol_setter.2.2.2.1 sampleSpecies 3 (by decide)⟩

/-- C1: the claim states that `dump` followed by `load` on the same key is
the identity on records.  In the code `dump` computes the file name from
`s.mult`, the broken property that returns `None`, so `dump` always raises
`TypeError` before writing; and `load` calls `f.readall()`, which does not
exist on Python file objects, so it raises `AttributeError` whenever the
file is present.  The round trip therefore never returns a record. -/
theorem claim1_roundtrip_impossible :
    (∀ (eS : String → String) (s : Species) (dp : String) (fs : FS),
        dump eS s dp fs = .error (.typeError
          "unsupported format string passed to NoneType format")) ∧
    (∀ (eS : String → String) (elem : String) (charge mult nexc : Int)
        (ds dp : String) (fs : FS),
        (fs (datafile eS elem charge mult nexc ds dp)).isSome = true →
        load eS elem charge mult nexc ds dp fs = .error (.attributeError
          "TextIOWrapper object has no attribute readall")) := by
  constructor
  · intro eS s dp fs
    rfl
  · intro eS elem charge mult nexc ds dp fs h
    unfold load
    cases hfs : fs (datafile eS elem charge mult nexc ds dp) with
    | none => rw [hfs] at h; simp at h
    | some d => simp [hfs]

/-- Witness for C1: with a concrete record present at the derived path,
`load` on its exact key returns the `AttributeError`, not the record. -/
theorem claim1_witness :
    load (fun s => s) "H" 0 2 0 "slater" "data" (fun _ => some sampleData) =
      .error (.attributeError
        "TextIOWrapper object has no attribute readall") :=
  claim1_roundtrip_impossible.2 (fun s => s) "H" 0 2 0 "slater" "data"
    (fun _ => some sampleData) rfl

/-- C8: with `spin="t"` and a non-`None` index, the interpolated array is
the sum over the selected rows of the stored alpha and beta channel
arrays; the stored total array is consulted only when `spin="t"` and
`index=None`, and for every other selector the result is independent of
it. -/
theorem claim8_total_channel :
    (∀ (tot mo_a mo_b : Mat) (sp : Int) (idx : List Nat) (j : Nat),
        accessorArr tot mo_a mo_b sp "t" (some idx) j =
          (idx.map (fun i => mo_a.entry i j)).sum +
          (idx.map (fun i => mo_b.entry i j)).sum) ∧
    (∀ (tot tot2 mo_a mo_b : Mat) (sp : Int) (spin : String)
        (idx : Option (List Nat)), ¬ (spin = "t" ∧ idx = none) →
        accessorArr tot mo_a mo_b sp spin idx =
          accessorArr tot2 mo_a mo_b sp spin idx) := by
  constructor
  · intro tot a b sp idx j
    by_cases hsp : sp = 1
    · simp [accessorArr, hsp, Mat.add, Mat.selectSum, list_sum_map_add]
    · simp [accessorArr, hsp, Mat.add, Mat.selectSum, list_sum_map_add]
      ring
  · intro tot tot2 a b sp spin idx h
    have h1 : ¬ (idx = none ∧ spin = "t") := fun hc => h ⟨hc.2, hc.1⟩
    funext j
    simp only [accessorArr]
    rw [if_neg h1, if_neg h1]

/-- Witness for C8: changing the total array does not change the `spin="a"`
result on a concrete record. -/
theorem claim8_witness :
    accessorArr zeroMat zeroMat zeroMat 1 "a" none =
      accessorArr oneMat zeroMat zeroMat 1 "a" none :=
  claim8_total_channel.2 zeroMat oneMat zeroMat zeroMat 1 "a" none
    (by decide)

/-- C5: for records whose alpha and beta channels have the same orbital
count, the array interpolated with `spin="m"` equals, at every grid point,
the difference of the arrays interpolated with `spin="a"` and `spin="b"`,
for any index selection and either value of `spinpol`. -/
theorem claim5_m_is_a_minus_b (tot mo_a mo_b : Mat) (sp : Int)
    (idx : Option (List Nat)) (j : Nat) (h : mo_a.rows = mo_b.rows) :
    accessorArr tot mo_a mo_b sp "m" idx j =
      accessorArr tot mo_a mo_b sp "a" idx j -
      accessorArr tot mo_a mo_b sp "b" idx j := by
  by_cases hsp : sp = 1 <;>
    cases idx with
    | none =>
        simp [accessorArr, hsp, Mat.sub, Mat.selectSum, list_sum_map_sub, h]
    | some is =>
        simp [accessorArr, hsp, Mat.sub, Mat.selectSum, list_sum_map_sub]

/-- Witness for C5: the identity on a concrete record with equal channel
shapes, with `spinpol = 1` and no index selection. -/
theorem claim5_witness :
    accessorArr zeroMat zeroMat zeroMat 1 "m" none 0 =
      accessorArr zeroMat zeroMat zeroMat 1 "a" none 0 -
      accessorArr zeroMat zeroMat zeroMat 1 "b" none 0 :=
  claim5_m_is_a_minus_b zeroMat zeroMat zeroMat 1 none 0 rfl

theorem string_eq_empty_iff (s : String) : s = "" ↔ s.data = [] := by
  constructor
  · intro h
    rw [h]
  · intro h
    exact String.ext (by rw [h])

theorem app_ne_nil_left (l l' : List Char) (h : l ≠ []) : l ++ l' ≠ [] := by
  intro hc
  rw [List.append_eq_nil] at hc
  exact h hc.1

theorem startsWithSlash_append_left (a b : String) (ha : a.data ≠ []) :
    startsWithSlash (a ++ b) = startsWithSlash a := by
  unfold startsWithSlash
  rw [String.data_append a b]
  cases hd : a.data with
  | nil => exact absurd hd ha
  | cons c t => rfl

theorem startsWithSlash_append_both (a b : String)
    (ha : startsWithSlash a = false) (hb : startsWithSlash b = false) :
    startsWithSlash (a ++ b) = false := by
  unfold startsWithSlash at *
  rw [String.data_append a b]
  cases hd : a.data with
  | nil => exact hb
  | cons c t =>
      rw [hd] at ha
      exact ha

theorem endsWithSlash_append (a b : String) (hb : b.data ≠ []) :
    endsWithSlash (a ++ b) = endsWithSlash b := by
  unfold endsWithSlash
  rw [String.data_append a b, List.getLast?_append]
  have hsome : (b.data.getLast?).isSome := List.getLast?_isSome.mpr hb
  obtain ⟨c, hc⟩ := Option.isSome_iff_exists.mp hsome
  rw [hc]
  rfl

theorem joinOne_normal (a b : String) (hb : startsWithSlash b = false)
    (ha : a.data ≠ []) (ha2 : endsWithSlash a = false) :
    joinOne a b = a ++ "/" ++ b := by
  have hc1 : ¬ (startsWithSlash b = true) := by simp [hb]
  have hc2 : ¬ (a = "" ∨ endsWithSlash a = true) := by
    rintro (h | h)
    · exact ha ((string_eq_empty_iff a).mp h)
    · rw [ha2] at h
      exact Bool.noConfusion h
  rw [joinOne, if_neg hc1, if_neg hc2]

/-- C6: for a non-wildcard key the database file path is exactly
`<datapath>/<lowercased dataset>/db/<symbol>_<charge:03d>_<mult:03d>_<nexc:03d>.msg`
(for well-formed components: nonempty `datapath` and lowercased dataset,
neither ending in a separator, no component starting with one), and the
key-to-path mapping is deterministic. -/
theorem claim6_datafile_path (eS : String → String) (elem : String)
    (charge mult nexc : Int) (dataset datapath : String)
    (h1 : datapath.data ≠ []) (h2 : endsWithSlash datapath = false)
    (h3 : (pyLower dataset).data ≠ [])
    (h4 : startsWithSlash (pyLower dataset) = false)
    (h5 : endsWithSlash (pyLower dataset) = false)
    (h6 : startsWithSlash (eS elem) = false) :
    datafile eS elem charge mult nexc dataset datapath =
      datapath ++ "/" ++ pyLower dataset ++ "/" ++ "db" ++ "/" ++
        (eS elem ++ "_" ++ format03d charge ++ "_" ++ format03d mult ++
          "_" ++ format03d nexc ++ ".msg") ∧
    (∀ (elem2 : String) (c2 m2 n2 : Int) (ds2 dp2 : String),
        elem = elem2 → charge = c2 → mult = m2 → nexc = n2 →
        dataset = ds2 → datapath = dp2 →
        datafile eS elem charge mult nexc dataset datapath =
          datafile eS elem2 c2 m2 n2 ds2 dp2) := by
  constructor
  · show joinOne (joinOne (joinOne datapath (pyLower dataset)) "db")
      (eS elem ++ "_" ++ format03d charge ++ "_" ++ format03d mult ++
        "_" ++ format03d nexc ++ ".msg") = _
    have hu : ("_" : String).data = ['_'] := rfl
    have hdb : ("db" : String).data = ['d', 'b'] := rfl
    have s1 : joinOne datapath (pyLower dataset) =
        datapath ++ "/" ++ pyLower dataset :=
      joinOne_normal _ _ h4 h1 h2
    have d1 : (datapath ++ "/" ++ pyLower dataset).data ≠ [] := by
      rw [String.data_append]
      exact fun hc => h3 (List.append_eq_nil.mp hc).2
    have e1 : endsWithSlash (datapath ++ "/" ++ pyLower dataset) = false := by
      rw [endsWithSlash_append (datapath ++ "/") (pyLower dataset) h3]
      exact h5
    have s2 : joinOne (datapath ++ "/" ++ pyLower dataset) "db" =
        datapath ++ "/" ++ pyLower dataset ++ "/" ++ "db" :=
      joinOne_normal _ _ (by decide) d1 e1
    have d2 : (datapath ++ "/" ++ pyLower dataset ++ "/" ++ "db").data
        ≠ [] := by
      rw [String.data_append, hdb]
      simp
    have e2 : endsWithSlash
        (datapath ++ "/" ++ pyLower dataset ++ "/" ++ "db") = false := by
      rw [endsWithSlash_append _ "db" (by rw [hdb]; simp)]
      decide
    have n1 : (eS elem ++ "_").data ≠ [] := by
      rw [String.data_append, hu]
      simp
    have n2 : (eS elem ++ "_" ++ format03d charge).data ≠ [] := by
      rw [String.data_append]
      exact app_ne_nil_left _ _ n1
    have n3 : (eS elem ++ "_" ++ format03d charge ++ "_").data ≠ [] := by
      rw [String.data_append]
      exact app_ne_nil_left _ _ n2
    have n4 : (eS elem ++ "_" ++ format03d charge ++ "_" ++
        format03d mult).data ≠ [] := by
      rw [String.data_append]
      exact app_ne_nil_left _ _ n3
    have n5 : (eS elem ++ "_" ++ format03d charge ++ "_" ++
        format03d mult ++ "_").data ≠ [] := by
      rw [String.data_append]
      exact app_ne_nil_left _ _ n4
    have n6 : (eS elem ++ "_" ++ format03d charge ++ "_" ++
        format03d mult ++ "_" ++ format03d nexc).data ≠ [] := by
      rw [String.data_append]
      exact app_ne_nil_left _ _ n5
    have f1 : startsWithSlash
        (eS elem ++ "_" ++ format03d charge ++ "_" ++ format03d mult ++
          "_" ++ format03d nexc ++ ".msg") = false := by
      rw [startsWithSlash_append_left _ ".msg" n6,
        startsWithSlash_append_left _ (format03d nexc) n5,
        startsWithSlash_append_left _ "_" n4,
        startsWithSlash_append_left _ (format03d mult) n3,
        startsWithSlash_append_left _ "_" n2,
        startsWithSlash_append_left _ (format03d charge) n1]
      exact startsWithSlash_append_both (eS elem) "_" h6 (by decide)
    have s3 : joinOne (datapath ++ "/" ++ pyLower dataset ++ "/" ++ "db")
        (eS elem ++ "_" ++ format03d charge ++ "_" ++ format03d mult ++
          "_" ++ format03d nexc ++ ".msg") =
        datapath ++ "/" ++ pyLower dataset ++ "/" ++ "db" ++ "/" ++
          (eS elem ++ "_" ++ format03d charge ++ "_" ++ format03d mult ++
            "_" ++ format03d nexc ++ ".msg") :=
      joinOne_normal _ _ f1 d2 e2
    rw [s1, s2, s3]
  · intro elem2 c2 m2 n2 ds2 dp2 he hc hm hn hds hdp
    subst he
    subst hc
    subst hm
    subst hn
    subst hds
    subst hdp
    rfl

/-- Witness for C6: a concrete key yields exactly the expected path. -/
theorem claim6_witness :
    datafile (fun s => s) "H" 0 2 0 "SLATER" "/data/atomdb" =
      "/data/atomdb/slater/db/H_000_002_000.msg" := by
  have h := claim6_datafile_path (fun s => s) "H" 0 2 0 "SLATER"
    "/data/atomdb" (by decide) (by decide) (by decide) (by decide)
    (by decide) (by decide)
  rw [h.1]
  decide

end AtomDB
